import Mathlib

/-!
Shallow embedding of the cdntest benchmark core (statistics module,
timing collector, trial runner, report aggregator) together with
theorems settling the specification claims.

Conventions of the embedding:
* JavaScript numbers carrying timings are modelled as rationals (ℚ);
  counts are naturals, and JS subtraction of counts is done in ℤ.
* `null`/`undefined` is modelled by `Option`.
* JS strings used as URLs/labels are Lean `String`s; the wildcard host
  matcher works on `List Char` (a JS string is a sequence of code
  units; the hosts involved are ASCII).
* Asynchronous control flow is modelled by explicit data flow: the
  poll loop takes the stream of snapshots the page would produce, and
  the trial runner takes the outcome of the navigation call.
-/

/-! ### Statistics module (src/lib/utils.js) -/

/-- Ascending sort used by the stats helpers; models
`[...values].sort((a, b) => a - b)`. -/
def sortAsc (values : List ℚ) : List ℚ :=
  values.insertionSort (fun a b => a ≤ b)

/-- Model of `median(values)` from src/lib/utils.js. -/
def median (values : List ℚ) : Option ℚ :=
  if values = [] then none
  else
    let sorted := sortAsc values
    let mid := sorted.length / 2
    if sorted.length % 2 = 1 then some (sorted.getD mid 0)
    else some ((sorted.getD (mid - 1) 0 + sorted.getD mid 0) / 2)

/-- Model of `percentile(values, p)` from src/lib/utils.js:
`idx = Math.ceil(p * n) - 1` clamped to `[0, n-1]`, read off the
ascending-sorted copy. -/
def percentile (values : List ℚ) (p : ℚ) : Option ℚ :=
  if values = [] then none
  else
    let sorted := sortAsc values
    let idx : ℤ := Rat.ceil (p * sorted.length) - 1
    some (sorted.getD (Int.toNat (max 0 (min ((sorted.length : ℤ) - 1) idx))) 0)

/-- Model of `mean(values)` from src/lib/utils.js. -/
def mean (values : List ℚ) : Option ℚ :=
  if values = [] then none
  else some (values.sum / values.length)

/-- Model of `improvement(originMs, cdnMs)` from src/lib/utils.js:
`null` when either input is `null` or origin is zero, otherwise
`(origin - cdn) / origin * 100`. -/
def improvement (originMs cdnMs : Option ℚ) : Option ℚ :=
  match originMs, cdnMs with
  | some o, some c => if o = 0 then none else some ((o - c) / o * 100)
  | _, _ => none

/-- Model of JavaScript `Math.round` on a finite number: round half
toward positive infinity. -/
def jsRound (q : ℚ) : ℤ :=
  Rat.floor (q + 1 / 2)

/-- Trace of one `withRetries(fn, attempts, backoffMs, onRetry)` call:
the final outcome, how many times `fn` was invoked, and the
`(attempt, delay)` arguments of each `onRetry` observer invocation in
order. -/
structure RetryTrace (E A : Type) where
  result : Except E A
  calls : Nat
  retries : List (Nat × ℚ)
deriving Repr

/-- Loop body of `withRetries` from src/lib/utils.js: the current
attempt is numbered `attempt` and `left` further attempts remain after
it (so the JS guard `attempt >= total` is `left = 0`). `fn` gives the
outcome of each attempt (`.ok` models a return, `.error` a throw).
After a failure with attempts left the observer is invoked with
`delay = backoffMs * 2 ^ (attempt - 1)` and the loop retries; the last
failure is re-raised once attempts are exhausted. -/
def retryLoop (E A : Type) (fn : Nat → Except E A) (backoffMs : ℚ) :
    Nat → Nat → RetryTrace E A
  | attempt, left =>
    match fn attempt with
    | .ok a => ⟨.ok a, 1, []⟩
    | .error e =>
      match left with
      | 0 => ⟨.error e, 1, []⟩
      | left + 1 =>
        let delay := backoffMs * 2 ^ (attempt - 1)
        let rest := retryLoop E A fn backoffMs (attempt + 1) left
        ⟨rest.result, rest.calls + 1, (attempt, delay) :: rest.retries⟩

/-- Model of `withRetries(fn, attempts, backoffMs, onRetry)` from
src/lib/utils.js; `total = Math.max(1, attempts)` and the loop starts
at attempt 1 (hence `total - 1` attempts remain after the first). -/
def withRetries (E A : Type) (fn : Nat → Except E A) (attempts : Nat)
    (backoffMs : ℚ) : RetryTrace E A :=
  retryLoop E A fn backoffMs 1 (max 1 attempts - 1)

/-! ### Wildcard host matcher (collectImageTimings, src/unnamed/part_001) -/

/-- Model of JavaScript `String.prototype.split` with a one-character
separator. -/
def splitOnChar (c : Char) : List Char → List (List Char)
  | [] => [[]]
  | x :: xs =>
    let rest := splitOnChar c xs
    if x = c then [] :: rest
    else
      match rest with
      | [] => [[x]]
      | y :: ys => (x :: y) :: ys

/-- First index at which `pat` occurs in the list, as in
`String.prototype.indexOf` (searching from position 0). -/
def indexOfSub (pat : List Char) : List Char → Option Nat
  | [] => if pat.isPrefixOf ([] : List Char) then some 0 else none
  | c :: t =>
    if pat.isPrefixOf (c :: t) then some 0
    else (indexOfSub pat t).map (fun n => n + 1)

/-- Ordered-substring scan of `matchHost`: each part must occur in
`host` at or after the cursor `idx`; the cursor advances past the
match (`index = found + part.length`). -/
def scanParts (host : List Char) : Nat → List (List Char) → Bool
  | _, [] => true
  | idx, p :: rest =>
    match (indexOfSub p (host.drop idx)).map (fun n => n + idx) with
    | none => false
    | some found => scanParts host (found + p.length) rest

/-- Model of the `matchHost(host, pattern)` closure inside
`collectImageTimings` (src/unnamed/part_001): empty host or pattern
never match; a `*`-free pattern requires exact equality; otherwise the
pattern is split on `*`, the first/last fragment is anchored unless
the pattern starts/ends with `*`, and all fragments must occur in
order. -/
def matchHost (host pat : List Char) : Bool :=
  if pat.isEmpty || host.isEmpty then false
  else if !(pat.contains '*') then host == pat
  else
    let parts := (splitOnChar '*' pat).filter (fun s => !s.isEmpty)
    if parts.isEmpty then true
    else if !(pat.head? == some '*') && !((parts.headD []).isPrefixOf host) then false
    else if !(pat.getLast? == some '*') && !((parts.getLastD []).isSuffixOf host) then false
    else scanParts host 0 parts

/-- Model of the `allowedHost(host)` closure: an empty allow-list lets
every host through, otherwise some pattern must match. -/
def allowedHost (allowHosts : List (List Char)) (host : List Char) : Bool :=
  allowHosts.isEmpty || allowHosts.any (fun p => matchHost host p)

/-- String-level wrapper of `matchHost`. -/
def matchHostS (host pat : String) : Bool :=
  matchHost host.toList pat.toList

/-- String-level wrapper of `allowedHost`. -/
def allowedHostS (allowHosts : List String) (host : String) : Bool :=
  allowHosts.isEmpty || allowHosts.any (fun p => matchHostS host p)

/-! ### Timing collector (collectImageTimings, src/unnamed/part_001) -/

/-- One rendered `<img>` element as seen by the collector, after URL
resolution: `src` is the resolved `img.currentSrc || img.src`,
`currentSrc` the raw `img.currentSrc` (possibly empty), `hostname` the
parsed host, plus the load state (`complete`, `naturalWidth`). -/
structure ImgItem where
  src : String
  currentSrc : String
  hostname : String
  complete : Bool
  naturalWidth : Nat
deriving Repr, DecidableEq

/-- One Resource Timing API entry (`performance.getEntriesByType`). -/
structure ResourceEntry where
  name : String
  startTime : ℚ
  responseStart : ℚ
  responseEnd : ℚ
  duration : ℚ
  transferSize : ℚ
deriving Repr, DecidableEq

/-- One element of the collector's `imageTimings` array: either a full
record from a resource-timing entry, or the `noTiming` placeholder
whose timing fields are all `null`. -/
structure ImageTiming where
  url : String
  responseEnd : Option ℚ
  ttfb : Option ℚ
  duration : Option ℚ
  transferSize : Option ℚ
  noTiming : Bool
deriving Repr, DecidableEq

/-- The snapshot object returned by `collectImageTimings`. -/
structure ImageStats where
  total : Nat
  loaded : Nat
  failed : Nat
  pending : Nat
  failedUrls : List String
  pendingUrls : List String
  urls : List String
  hosts : List String
  maxResponseEnd : Option ℚ
  imagesOnlyMs : Option ℚ
  avgImageMs : Option ℚ
  sumImageMs : Option ℚ
  imageTimings : List ImageTiming
deriving Repr, DecidableEq

/-- The `imgData` filter chain of `collectImageTimings`: images with a
non-empty source whose host is not on the ignore-list and passes the
allow-list. These are the qualifying images. -/
def qualifyingImages (ignoreHosts allowHosts : List String)
    (images : List ImgItem) : List ImgItem :=
  images.filter (fun e =>
    !(e.src == "") && !(ignoreHosts.contains e.hostname) && allowedHostS allowHosts e.hostname)

/-- Resource-timing lookup of `collectImageTimings`:
`resourceEntries.find((r) => r.name === src || r.name === img.currentSrc)`. -/
def findTiming (entries : List ResourceEntry) (img : ImgItem) : Option ResourceEntry :=
  entries.find? (fun r => r.name == img.src || r.name == img.currentSrc)

/-- Full `imageTimings` record built from a matched entry:
`{responseEnd, ttfb = responseStart - startTime, duration, transferSize}`. -/
def mkTiming (img : ImgItem) (t : ResourceEntry) : ImageTiming :=
  ⟨img.src, some t.responseEnd, some (t.responseStart - t.startTime),
    some t.duration, some t.transferSize, false⟩

/-- The `noTiming` placeholder pushed for an image that loaded with
nonzero natural size but has no resource-timing entry. -/
def noTimingOf (img : ImgItem) : ImageTiming :=
  ⟨img.src, none, none, none, none, true⟩

/-- The classification loop of `collectImageTimings`: for each
qualifying image in order, a matched entry yields a full timing; with
no entry, a complete image of nonzero natural size yields the
placeholder, a complete image of zero natural size goes to
`failedUrls`, and anything else is skipped. Returns
`(imageTimings, failedUrls)`. -/
def classifyImages (entries : List ResourceEntry) :
    List ImgItem → List ImageTiming × List String
  | [] => ([], [])
  | e :: rest =>
    let acc := classifyImages entries rest
    match findTiming entries e with
    | some t => (mkTiming e t :: acc.1, acc.2)
    | none =>
      if e.complete && decide (0 < e.naturalWidth) then (noTimingOf e :: acc.1, acc.2)
      else if e.complete && decide (e.naturalWidth = 0) then (acc.1, e.src :: acc.2)
      else acc

/-- Start of a fully-timed image: `responseEnd - duration`. -/
def fullStart (t : ImageTiming) : ℚ :=
  t.responseEnd.getD 0 - t.duration.getD 0

/-- End of a fully-timed image: `responseEnd`. -/
def fullEnd (t : ImageTiming) : ℚ :=
  t.responseEnd.getD 0

/-- Duration of a fully-timed image. -/
def fullDuration (t : ImageTiming) : ℚ :=
  t.duration.getD 0

/-- Aggregate block of `collectImageTimings` over `timingsWithData`
(the timings whose `responseEnd` and `duration` are both non-null; on
those the `getD 0` in `fullStart`/`fullEnd`/`fullDuration` never takes
its default). Yields
`(maxResponseEnd, imagesOnlyMs, avgImageMs, sumImageMs)`:
`lastEnd = Math.max(...responseEnd)`,
`firstStart = Math.min(...(responseEnd - duration))`,
`imagesOnlyMs = lastEnd - firstStart`, the mean and the sum of the
durations. `null` when no image has full timing. -/
def imageAggregates (timingsWithData : List ImageTiming) :
    Option (ℚ × ℚ × ℚ × ℚ) :=
  match timingsWithData with
  | [] => none
  | t0 :: rest =>
    let firstStart := (rest.map fullStart).foldl min (fullStart t0)
    let lastEnd := (rest.map fullEnd).foldl max (fullEnd t0)
    let durs := (t0 :: rest).map fullDuration
    some (lastEnd, lastEnd - firstStart, durs.sum / durs.length, durs.sum)

/-- First-occurrence deduplication, as `[...new Set(xs)]`. -/
def uniqueFirst (seen : List String) : List String → List String
  | [] => []
  | x :: xs =>
    if seen.contains x then uniqueFirst seen xs
    else x :: uniqueFirst (x :: seen) xs

/-- Model of `collectImageTimings(page, ignoreHosts, allowHosts)` from
src/unnamed/part_001; the page state is passed as the list of rendered
images and the list of resource-timing entries. -/
def collectImageTimings (ignoreHosts allowHosts : List String)
    (images : List ImgItem) (entries : List ResourceEntry) : ImageStats :=
  let imgData := qualifyingImages ignoreHosts allowHosts images
  let hosts := uniqueFirst [] (imgData.map (fun e => e.hostname))
  let urls := imgData.map (fun e => e.src)
  let classified := classifyImages entries imgData
  let imageTimings := classified.1
  let failedUrls := classified.2
  let timingsWithData :=
    imageTimings.filter (fun t => t.responseEnd.isSome && t.duration.isSome)
  let agg := imageAggregates timingsWithData
  let pendingList := (imgData.filter (fun e => !e.complete)).map (fun e => e.src)
  { total := imgData.length
    loaded := imageTimings.length
    failed := failedUrls.length
    pending := pendingList.length
    failedUrls := failedUrls
    pendingUrls := pendingList
    urls := urls
    hosts := hosts
    maxResponseEnd := agg.map (fun a => a.1)
    imagesOnlyMs := agg.map (fun a => a.2.1)
    avgImageMs := agg.map (fun a => a.2.2.1)
    sumImageMs := agg.map (fun a => a.2.2.2)
    imageTimings := imageTimings }

/-! ### Poll loop (waitForImages, src/unnamed/part_001) -/

/-- Result of `waitForImages`: the `timeout`/`timeoutReason` flags
together with the snapshot spread into the result object. -/
structure WaitResult where
  timeout : Bool
  timeoutReason : Option String
  stats : ImageStats
deriving Repr, DecidableEq

/-- One poll step of `waitForImages`: `some` result terminates the
loop, `none` sleeps and polls again. `total === 0 || total === failed`
returns early with reason `no_images`; otherwise `pending === 0`
returns with reason `images_failed` when any image failed and `null`
(success) when none did. -/
def pollDecision (stats : ImageStats) : Option WaitResult :=
  if stats.total = 0 ∨ stats.total = stats.failed then
    some ⟨false, some "no_images", stats⟩
  else if stats.pending = 0 then
    some ⟨false, if 0 < stats.failed then some "images_failed" else none, stats⟩
  else none

/-- Model of the `waitForImages` poll loop: `snapshots k` is what
`collectImageTimings` returns at the k-th call, and `fuel` is how many
polls fit into `maxWaitMs` (the `Date.now() - startTime < maxWaitMs`
guard). When the budget is exhausted the loop collects one final
snapshot and returns it with reason `timeout` regardless of
completeness. -/
def waitForImages (snapshots : Nat → ImageStats) : Nat → Nat → WaitResult
  | 0, k => ⟨true, some "timeout", snapshots k⟩
  | fuel + 1, k =>
    match pollDecision (snapshots k) with
    | some r => r
    | none => waitForImages snapshots fuel (k + 1)

/-! ### Trial runner (runSingle, src/unnamed/part_001) -/

/-- A thrown navigation failure; `isTimeoutClass` models
`error.name === "TimeoutError"`. -/
structure NavError where
  isTimeoutClass : Bool
deriving Repr, DecidableEq

/-- The trial result object returned by `runSingle`. -/
structure TrialResult where
  imagesLoadedMs : Option ℤ
  avgImageMs : Option ℤ
  sumImageMs : Option ℤ
  timeout : Bool
  timeoutReason : Option String
  imagesTotal : ℤ
  imagesLoaded : Nat
  imagesFailed : Nat
  imagesPending : Nat
  errorsCount : Nat
  imageUrls : List String
  imageFailedUrls : List String
  imageHosts : List String
deriving Repr, DecidableEq

/-- The `imageStats` object built in the `catch` block of `runSingle`
when navigation throws: zero counts, empty URL lists, and no aggregate
fields (absent object keys are `none`). -/
def emptyImageStats : ImageStats :=
  ⟨0, 0, 0, 0, [], [], [], [], none, none, none, none, []⟩

/-- Model of `runSingle` from src/unnamed/part_001. `nav` is the
outcome of the `page.goto` call (`.error` models a throw); `wait` is
what `waitForImages` returns when navigation succeeds; `wallElapsedMs`
is `Date.now() - startMs` at the wall-clock fallback. Navigation
failures are caught: the function always returns exactly one trial
result. Page-metric collection (`ttfbMs`, `lcpMs`, userAgent,
viewport) is best-effort and is not modelled. -/
def runSingle (nav : Except NavError Unit) (wait : WaitResult)
    (wallElapsedMs : ℚ) : TrialResult :=
  let imageStats : WaitResult :=
    match nav with
    | .ok _ => wait
    | .error e =>
      ⟨true, some (if e.isTimeoutClass then "navigation_timeout" else "navigation_error"),
        emptyImageStats⟩
  let imagesLoadedMs : Option ℚ :=
    match nav with
    | .error _ => none
    | .ok _ =>
      match imageStats.stats.imagesOnlyMs with
      | some v => some v
      | none =>
        if imageStats.timeout = false ∧ imageStats.stats.pending = 0 then
          some wallElapsedMs
        else none
  { imagesLoadedMs := imagesLoadedMs.map jsRound
    avgImageMs := imageStats.stats.avgImageMs.map jsRound
    sumImageMs := imageStats.stats.sumImageMs.map jsRound
    timeout := imageStats.timeout
    timeoutReason := imageStats.timeoutReason
    imagesTotal := (imageStats.stats.total : ℤ) - (imageStats.stats.failed : ℤ)
    imagesLoaded := imageStats.stats.loaded
    imagesFailed := imageStats.stats.failed
    imagesPending := imageStats.stats.pending
    errorsCount := imageStats.stats.failed
    imageUrls := imageStats.stats.urls
    imageFailedUrls := imageStats.stats.failedUrls
    imageHosts := imageStats.stats.hosts }

/-! ### Report aggregator (src/unnamed/part_000) -/

/-- One report record assembled per trial in `cmdRun`
(src/bin/bench.js). Numeric fields are the already-rounded
milliseconds; absent values are `none` (the CSV writer renders them as
empty cells via `?? ""`). -/
structure TrialRecord where
  timestamp_iso : String
  page_id : String
  variant : String
  run_index : Nat
  images_loaded_ms : Option ℤ
  avg_image_ms : Option ℤ
  ttfb_ms : Option ℤ
  lcp_ms : Option ℤ
  images_total : Option ℤ
  images_failed : Option ℤ
  errors_count : Option ℤ
deriving Repr, DecidableEq

/-- Decimal digit character. -/
def digitChar (n : Nat) : Char :=
  Char.ofNat (48 + n)

/-- Decimal rendering of a natural number (JS number-to-string for
nonnegative integers). -/
def natToCell (n : Nat) : String :=
  if _h : n < 10 then String.singleton (digitChar n)
  else natToCell (n / 10) ++ String.singleton (digitChar (n % 10))
decreasing_by exact Nat.div_lt_self (by omega) (by omega)

/-- Decimal rendering of an integer. -/
def intToCell (z : ℤ) : String :=
  if z < 0 then "-" ++ natToCell z.natAbs else natToCell z.natAbs

/-- CSV cell of a nullable number: `value ?? ""`. -/
def optCell (v : Option ℤ) : String :=
  match v with
  | some z => intToCell z
  | none => ""

/-- Model of JavaScript `Number.prototype.toFixed(1)`: one decimal
digit, ties rounded toward positive infinity. -/
def toFixed1 (q : ℚ) : String :=
  let n := jsRound (q * 10)
  let sign := if n < 0 then "-" else ""
  sign ++ natToCell (n.natAbs / 10) ++ "." ++ natToCell (n.natAbs % 10)

/-- CSV cell of a nullable percentage:
`value != null ? value.toFixed(1) : ""`. -/
def optFixed1 (v : Option ℚ) : String :=
  match v with
  | some q => toFixed1 q
  | none => ""

/-- The CSV header columns of src/unnamed/part_000 in order; the first
eleven are per-trial columns, the last eight are summary columns
filled only in the TOTAL row. -/
def CSV_HEADER : List String :=
  ["timestamp", "page_id", "variant", "run",
   "images_ms", "avg_img_ms", "ttfb_ms", "lcp_ms",
   "images_total", "images_failed", "errors",
   "origin_median", "origin_p90", "origin_avg_img",
   "cdn_median", "cdn_p90", "cdn_avg_img",
   "improvement_%", "improvement_p90_%"]

/-- The joined CSV header line. -/
def csvHeaderLine : String :=
  String.intercalate "," CSV_HEADER

/-- Model of `recordToCsvRow(record)`: the per-trial cells followed by
eight blank summary cells (the row is returned as its list of cells;
the file writer joins them with commas). -/
def recordToCsvRow (record : TrialRecord) : List String :=
  [record.timestamp_iso,
   record.page_id,
   record.variant,
   natToCell (record.run_index + 1),
   optCell record.images_loaded_ms,
   optCell record.avg_image_ms,
   optCell record.ttfb_ms,
   optCell record.lcp_ms,
   optCell record.images_total,
   optCell record.images_failed,
   optCell record.errors_count,
   "", "", "", "", "", "", "", ""]

/-- The summary object of `computeSummary(records)`. The standard
deviations computed by the source (`originStddev`, `cdnStddev`,
`Math.sqrt` of the sample variance) are not representable in ℚ and
appear in no CSV column or claim, so they are omitted from the model. -/
structure Summary where
  originMedian : Option ℤ
  originP90 : Option ℤ
  originAvgImg : Option ℤ
  cdnMedian : Option ℤ
  cdnP90 : Option ℤ
  cdnAvgImg : Option ℤ
  improvementMedian : Option ℚ
  improvementP90 : Option ℚ
  originErrors : ℤ
  cdnErrors : ℤ
deriving Repr, DecidableEq

/-- Model of `computeSummary(records)` from src/unnamed/part_000:
partition by variant, take the non-null `images_loaded_ms` and
`avg_image_ms` samples, and compute median / p90 / average-image
median per side (rounded), the improvement percentages at median and
p90 (unrounded), and the summed error counts. -/
def computeSummary (records : List TrialRecord) : Summary :=
  let origin := records.filter (fun r => r.variant == "origin")
  let cdn := records.filter (fun r => r.variant == "cdn")
  let originValues := (origin.filterMap (fun r => r.images_loaded_ms)).map (fun z => (z : ℚ))
  let cdnValues := (cdn.filterMap (fun r => r.images_loaded_ms)).map (fun z => (z : ℚ))
  let originAvgImg := (origin.filterMap (fun r => r.avg_image_ms)).map (fun z => (z : ℚ))
  let cdnAvgImg := (cdn.filterMap (fun r => r.avg_image_ms)).map (fun z => (z : ℚ))
  let originMedian := median originValues
  let originP90 := percentile originValues (9 / 10)
  let originAvgImgMedian := median originAvgImg
  let cdnMedian := median cdnValues
  let cdnP90 := percentile cdnValues (9 / 10)
  let cdnAvgImgMedian := median cdnAvgImg
  { originMedian := originMedian.map jsRound
    originP90 := originP90.map jsRound
    originAvgImg := originAvgImgMedian.map jsRound
    cdnMedian := cdnMedian.map jsRound
    cdnP90 := cdnP90.map jsRound
    cdnAvgImg := cdnAvgImgMedian.map jsRound
    improvementMedian := improvement originMedian cdnMedian
    improvementP90 := improvement originP90 cdnP90
    originErrors := (origin.map (fun r => r.errors_count.getD 0)).sum
    cdnErrors := (cdn.map (fun r => r.errors_count.getD 0)).sum }

/-- Model of `summaryToCsvRow(summary, timestamp)`: the TOTAL row with
blank per-trial metric cells and the eight summary cells. -/
def summaryToCsvRow (summary : Summary) (timestamp : String) : List String :=
  [timestamp, "TOTAL", "-", "-",
   "", "", "", "", "", "", "",
   optCell summary.originMedian,
   optCell summary.originP90,
   optCell summary.originAvgImg,
   optCell summary.cdnMedian,
   optCell summary.cdnP90,
   optCell summary.cdnAvgImg,
   optFixed1 summary.improvementMedian,
   optFixed1 summary.improvementP90]

/-- Model of the lines written by `saveReport({outputPath, records})`:
the header, one row per record in order, and exactly one trailing
summary row. -/
def saveReportLines (records : List TrialRecord) (timestamp : String) : List String :=
  (csvHeaderLine :: records.map (fun r => String.intercalate "," (recordToCsvRow r)))
    ++ [String.intercalate "," (summaryToCsvRow (computeSummary records) timestamp)]

/-! ### Concrete fixtures used by counterexamples and witnesses -/

/-- A qualifying image that completed with zero natural size and has a
matching resource-timing entry. -/
def brokenImg : ImgItem :=
  ⟨"https://cdn.example.com/broken.png", "https://cdn.example.com/broken.png",
    "cdn.example.com", true, 0⟩

/-- The resource-timing entry matching `brokenImg`. -/
def brokenEntry : ResourceEntry :=
  ⟨"https://cdn.example.com/broken.png", 0, 5, 30, 30, 1000⟩

/-- A snapshot in which every qualifying image has failed
(`total = failed = 1`, nothing pending). -/
def allFailedStats : ImageStats :=
  ⟨1, 0, 1, 0, ["https://img.example/x.png"], [], ["https://img.example/x.png"],
    ["img.example"], none, none, none, none, []⟩

/-- A snapshot with two qualifying images, one failed, none pending. -/
def oneFailedStats : ImageStats :=
  ⟨2, 1, 1, 0, ["https://img.example/x.png"], [],
    ["https://img.example/x.png", "https://img.example/y.png"],
    ["img.example"], none, none, none, none, []⟩

/-- A snapshot with two qualifying images, none failed, one pending. -/
def onePendingStats : ImageStats :=
  ⟨2, 1, 0, 1, [], ["https://img.example/y.png"],
    ["https://img.example/x.png", "https://img.example/y.png"],
    ["img.example"], none, none, none, none, []⟩

/-- A fully-timed image used by the aggregate witness. -/
def timedImg : ImgItem :=
  ⟨"https://a.example/1.png", "https://a.example/1.png", "a.example", true, 8⟩

/-- The resource-timing entry matching `timedImg`: request start 10,
response end 40, duration 30. -/
def timedEntry : ResourceEntry :=
  ⟨"https://a.example/1.png", 10, 15, 40, 30, 2048⟩

/-- A loaded cross-origin image without any resource-timing entry (it
gets the `noTiming` placeholder). -/
def untimedImg : ImgItem :=
  ⟨"https://b.example/2.png", "https://b.example/2.png", "b.example", true, 5⟩

/-- A summary whose aggregate fields are all present. -/
def filledSummary : Summary :=
  ⟨some 1, some 2, some 3, some 4, some 5, some 6, some (1 / 2), some (-3 / 2), 0, 0⟩

/-- The collector snapshot on `timedImg` and `untimedImg` with the
single entry `timedEntry`. -/
def c4Collected : ImageStats :=
  collectImageTimings [] [] [timedImg, untimedImg] [timedEntry]

/-- The fully-timed sub-list of `c4Collected`. -/
def c4Full : List ImageTiming :=
  c4Collected.imageTimings.filter (fun t => t.responseEnd.isSome && t.duration.isSome)

/-! ### Helper lemmas -/

theorem foldl_min_mem (l : List ℚ) (a : ℚ) : l.foldl min a ∈ a :: l := by
  induction l generalizing a with
  | nil => simp
  | cons c t ih =>
    rw [List.foldl_cons]
    rcases List.mem_cons.mp (ih (min a c)) with h1 | h1
    · rcases min_choice a c with h2 | h2
      · exact List.mem_cons.mpr (Or.inl (h1.trans h2))
      · exact List.mem_cons.mpr (Or.inr (List.mem_cons.mpr (Or.inl (h1.trans h2))))
    · exact List.mem_cons.mpr (Or.inr (List.mem_cons.mpr (Or.inr h1)))

theorem foldl_min_le (l : List ℚ) (a : ℚ) : ∀ b ∈ a :: l, l.foldl min a ≤ b := by
  induction l generalizing a with
  | nil =>
    intro b hb
    rw [List.mem_singleton] at hb
    subst hb
    simp
  | cons c t ih =>
    intro b hb
    rw [List.foldl_cons]
    rcases List.mem_cons.mp hb with h1 | h1
    · subst h1
      exact le_trans (ih (min b c) (min b c) (List.mem_cons_self _ _)) (min_le_left b c)
    · rcases List.mem_cons.mp h1 with h2 | h2
      · subst h2
        exact le_trans (ih (min a b) (min a b) (List.mem_cons_self _ _)) (min_le_right a b)
      · exact ih (min a c) b (List.mem_cons.mpr (Or.inr h2))

theorem foldl_max_mem (l : List ℚ) (a : ℚ) : l.foldl max a ∈ a :: l := by
  induction l generalizing a with
  | nil => simp
  | cons c t ih =>
    rw [List.foldl_cons]
    rcases List.mem_cons.mp (ih (max a c)) with h1 | h1
    · rcases max_choice a c with h2 | h2
      · exact List.mem_cons.mpr (Or.inl (h1.trans h2))
      · exact List.mem_cons.mpr (Or.inr (List.mem_cons.mpr (Or.inl (h1.trans h2))))
    · exact List.mem_cons.mpr (Or.inr (List.mem_cons.mpr (Or.inr h1)))

theorem foldl_max_ge (l : List ℚ) (a : ℚ) : ∀ b ∈ a :: l, b ≤ l.foldl max a := by
  induction l generalizing a with
  | nil =>
    intro b hb
    rw [List.mem_singleton] at hb
    subst hb
    simp
  | cons c t ih =>
    intro b hb
    rw [List.foldl_cons]
    rcases List.mem_cons.mp hb with h1 | h1
    · subst h1
      exact le_trans (le_max_left b c) (ih (max b c) (max b c) (List.mem_cons_self _ _))
    · rcases List.mem_cons.mp h1 with h2 | h2
      · subst h2
        exact le_trans (le_max_right a b) (ih (max a b) (max a b) (List.mem_cons_self _ _))
      · exact ih (max a c) b (List.mem_cons.mpr (Or.inr h2))

theorem foldl_min_eq_minimum (a : ℚ) (l : List ℚ) :
    (a :: l).minimum = ((l.foldl min a : ℚ) : WithTop ℚ) :=
  List.minimum_eq_coe_iff.mpr ⟨foldl_min_mem l a, foldl_min_le l a⟩

theorem foldl_max_eq_maximum (a : ℚ) (l : List ℚ) :
    (a :: l).maximum = ((l.foldl max a : ℚ) : WithBot ℚ) :=
  List.maximum_eq_coe_iff.mpr ⟨foldl_max_mem l a, foldl_max_ge l a⟩

theorem classifyImages_snd (entries : List ResourceEntry) (l : List ImgItem) :
    (classifyImages entries l).2 =
      (l.filter (fun e =>
        (findTiming entries e).isNone && e.complete && decide (e.naturalWidth = 0))).map
        (fun e => e.src) := by
  induction l with
  | nil => rfl
  | cons e rest ih =>
    rw [classifyImages]
    cases hft : findTiming entries e with
    | some t => simp [List.filter_cons, hft, ih]
    | none =>
      by_cases hc : e.complete = true
      · by_cases hw : e.naturalWidth = 0
        · simp [List.filter_cons, hft, hc, hw, ih]
        · have hpos : 0 < e.naturalWidth := Nat.pos_of_ne_zero hw
          simp [List.filter_cons, hft, hc, hw, hpos, ih]
      · have hc2 : e.complete = false := by
          cases h : e.complete
          · rfl
          · exact absurd h hc
        simp [List.filter_cons, hft, hc2, ih]

theorem classifyImages_fst_length (entries : List ResourceEntry) (l : List ImgItem) :
    (classifyImages entries l).1.length =
      (l.filter (fun e =>
        (findTiming entries e).isSome || (e.complete && decide (0 < e.naturalWidth)))).length := by
  induction l with
  | nil => rfl
  | cons e rest ih =>
    rw [classifyImages]
    cases hft : findTiming entries e with
    | some t => simp [List.filter_cons, hft, ih]
    | none =>
      by_cases hc : e.complete = true
      · by_cases hw : e.naturalWidth = 0
        · simp [List.filter_cons, hft, hc, hw, ih]
        · have hpos : 0 < e.naturalWidth := Nat.pos_of_ne_zero hw
          simp [List.filter_cons, hft, hc, hw, hpos, ih]
      · have hc2 : e.complete = false := by
          cases h : e.complete
          · rfl
          · exact absurd h hc
        simp [List.filter_cons, hft, hc2, ih]

theorem classifyImages_full_of_mem (entries : List ResourceEntry) (l : List ImgItem) :
    ∀ t ∈ (classifyImages entries l).1,
      (t.responseEnd.isSome && t.duration.isSome) = !t.noTiming := by
  induction l with
  | nil => intro t ht; simp [classifyImages] at ht
  | cons e rest ih =>
    intro t ht
    rw [classifyImages] at ht
    cases hft : findTiming entries e with
    | some timing =>
      rw [hft] at ht
      rcases List.mem_cons.mp ht with h1 | h1
      · subst h1; rfl
      · exact ih t h1
    | none =>
      rw [hft] at ht
      by_cases hc : (e.complete && decide (0 < e.naturalWidth)) = true
      · rw [if_pos hc] at ht
        rcases List.mem_cons.mp ht with h1 | h1
        · subst h1; rfl
        · exact ih t h1
      · rw [if_neg hc] at ht
        by_cases hw : (e.complete && decide (e.naturalWidth = 0)) = true
        · rw [if_pos hw] at ht
          exact ih t ht
        · rw [if_neg hw] at ht
          exact ih t ht

theorem length_filter_not_partition {α : Type} (p : α → Bool) (l : List α) :
    (l.filter p).length + (l.filter (fun a => !(p a))).length = l.length := by
  induction l with
  | nil => rfl
  | cons x xs ih =>
    cases h : p x <;> simp [List.filter_cons, h] <;> omega

theorem sortAsc_sorted (v : List ℚ) : List.Sorted (fun a b => a ≤ b) (sortAsc v) :=
  List.sorted_insertionSort (fun a b => a ≤ b) v

theorem sortAsc_length (v : List ℚ) : (sortAsc v).length = v.length :=
  List.length_insertionSort (fun a b => a ≤ b) v

theorem mem_sortAsc {v : List ℚ} {x : ℚ} : x ∈ sortAsc v ↔ x ∈ v :=
  List.mem_insertionSort (fun a b => a ≤ b)

theorem sortAsc_max (v : List ℚ) (hv : v ≠ []) :
    v.maximum = (((sortAsc v).getD (v.length - 1) 0 : ℚ) : WithBot ℚ) := by
  have hpos : 0 < v.length := List.length_pos.mpr hv
  have hlen : (sortAsc v).length = v.length := sortAsc_length v
  have hidx : v.length - 1 < (sortAsc v).length := by omega
  have hget : (sortAsc v).getD (v.length - 1) 0 = (sortAsc v).get ⟨v.length - 1, hidx⟩ := by
    rw [List.getD_eq_getElem _ _ hidx]
    rfl
  rw [List.maximum_eq_coe_iff]
  constructor
  · rw [hget]
    exact mem_sortAsc.mp (List.get_mem _ _ _)
  · intro b hb
    obtain ⟨⟨i, hi⟩, hgi⟩ := List.mem_iff_get.mp (mem_sortAsc.mpr hb)
    rw [hget, ← hgi]
    exact (sortAsc_sorted v).rel_get_of_le (by simp [Fin.le_def]; omega)

theorem sortAsc_min (v : List ℚ) (hv : v ≠ []) :
    v.minimum = (((sortAsc v).getD 0 0 : ℚ) : WithBot ℚ) := by
  have hpos : 0 < v.length := List.length_pos.mpr hv
  have hlen : (sortAsc v).length = v.length := sortAsc_length v
  have hidx : 0 < (sortAsc v).length := by omega
  have hget : (sortAsc v).getD 0 0 = (sortAsc v).get ⟨0, hidx⟩ := by
    rw [List.getD_eq_getElem _ _ hidx]
    rfl
  refine List.minimum_eq_coe_iff.mpr ⟨?_, ?_⟩
  · rw [hget]
    exact mem_sortAsc.mp (List.get_mem _ _ _)
  · intro b hb
    obtain ⟨⟨i, hi⟩, hgi⟩ := List.mem_iff_get.mp (mem_sortAsc.mpr hb)
    rw [hget, ← hgi]
    exact (sortAsc_sorted v).rel_get_of_le (by simp [Fin.le_def])

theorem ratCeil_natCast (n : ℕ) : Rat.ceil ((n : ℚ)) = n := by
  rw [Rat.ceil]
  simp

theorem natToCell_length_pos (n : ℕ) : 0 < (natToCell n).length := by
  rw [natToCell]
  split
  · simp [String.length_singleton]
  · rw [String.length_append, String.length_singleton]
    omega

theorem natToCell_ne_empty (n : ℕ) : natToCell n ≠ "" := by
  intro h
  have hl := natToCell_length_pos n
  rw [h] at hl
  simp at hl

theorem intToCell_ne_empty (z : ℤ) : intToCell z ≠ "" := by
  rw [intToCell]
  split
  · intro h
    have := congrArg String.length h
    rw [String.length_append] at this
    have hl := natToCell_length_pos z.natAbs
    simp at this
    omega
  · exact natToCell_ne_empty z.natAbs

theorem toFixed1_ne_empty (q : ℚ) : toFixed1 q ≠ "" := by
  rw [toFixed1]
  intro h
  have := congrArg String.length h
  rw [String.length_append, String.length_append, String.length_append] at this
  have hl := natToCell_length_pos ((jsRound (q * 10)).natAbs % 10)
  simp at this
  omega

theorem retryLoop_calls_le (E A : Type) (fn : Nat → Except E A) (b : ℚ) :
    ∀ left attempt, (retryLoop E A fn b attempt left).calls ≤ left + 1 := by
  intro left
  induction left with
  | zero =>
    intro attempt
    rw [retryLoop]
    cases fn attempt <;> simp
  | succ n ih =>
    intro attempt
    rw [retryLoop]
    cases fn attempt with
    | ok a => simp
    | error e =>
      simp only
      have := ih (attempt + 1)
      omega

theorem retryLoop_allFail (E : Type) (errs : Nat → E) (b : ℚ) :
    ∀ left attempt, retryLoop E Unit (fun k => .error (errs k)) b attempt left =
      ⟨.error (errs (attempt + left)), left + 1,
        (List.range left).map (fun i => (attempt + i, b * 2 ^ (attempt + i - 1)))⟩ := by
  intro left
  induction left with
  | zero =>
    intro attempt
    rw [retryLoop]
    simp
  | succ n ih =>
    intro attempt
    rw [retryLoop]
    simp only [ih (attempt + 1), List.range_succ_eq_map, List.map_cons, List.map_map]
    refine congrArg₂ (fun r t => RetryTrace.mk r (n + 1 + 1) t) (by rw [Nat.add_comm n 1, ← Nat.add_assoc]) ?_
    simp only [Function.comp, Nat.add_zero]
    refine congrArg₂ (fun a t => List.cons a t) rfl ?_
    apply List.map_congr_left
    intro i _
    refine congrArg₂ (fun a c => (a, b * 2 ^ c)) (by omega) (by omega)

/-! ### Claim theorems -/

/-- C8: improvement(origin, cdn) equals (origin - cdn) / origin x 100
whenever both inputs are present and origin is nonzero, and returns
no-result when origin is zero or either input is absent; in particular
improvement(100, 50) = 50.0, improvement(50, 100) = -100.0, and
improvement(0, 50) = no-result. -/
theorem C8_improvement_formula :
    (∀ o c : ℚ, o ≠ 0 → improvement (some o) (some c) = some ((o - c) / o * 100))
    ∧ (∀ c : ℚ, improvement (some 0) (some c) = none)
    ∧ (∀ v : Option ℚ, improvement none v = none)
    ∧ (∀ v : Option ℚ, improvement v none = none)
    ∧ improvement (some 100) (some 50) = some 50
    ∧ improvement (some 50) (some 100) = some (-100)
    ∧ improvement (some 0) (some 50) = none := by
  refine ⟨?_, ?_, ?_, ?_, ?_, ?_, ?_⟩
  · intro o c h
    simp [improvement, h]
  · intro c
    simp [improvement]
  · intro v
    cases v <;> rfl
  · intro v
    cases v <;> rfl
  · norm_num [improvement]
  · norm_num [improvement]
  · simp [improvement]

/-- C8 witness: the nonzero-origin formula instantiated at
improvement(100, 50). -/
theorem C8_witness : improvement (some 100) (some 50) = some ((100 - 50) / 100 * 100) :=
  C8_improvement_formula.1 100 50 (by norm_num)

/-- C5 counterexample: with attempts = 0 the operation is still
invoked once, so "at most `attempts` times" fails as stated. -/
theorem C5_counterexample :
    ¬ ((withRetries ℕ Unit (fun k => .error k) 0 100).calls ≤ 0) := by
  decide

/-- C5 (amended): withRetries invokes the operation at most
max(1, attempts) times; for an always-failing operation with
attempts ≥ 1 it invokes it exactly `attempts` times, calls the
observer after attempts 1..attempts-1 with delay backoff x 2^(k-1),
and re-raises the last failure; in particular with attempts = 3,
backoff = 100 the operation runs 3 times, the observer twice
(delays 100 and 200), and the final error is raised. -/
theorem C5_withRetries_retry_schedule :
    (∀ (E A : Type) (fn : Nat → Except E A) (attempts : Nat) (b : ℚ),
      (withRetries E A fn attempts b).calls ≤ max 1 attempts)
    ∧ (∀ (E : Type) (errs : Nat → E) (attempts : Nat) (b : ℚ), 1 ≤ attempts →
      withRetries E Unit (fun k => .error (errs k)) attempts b =
        ⟨.error (errs attempts), attempts,
          (List.range (attempts - 1)).map (fun i => (i + 1, b * 2 ^ i))⟩)
    ∧ withRetries ℕ Unit (fun k => .error k) 3 100 = ⟨.error 3, 3, [(1, 100), (2, 200)]⟩ := by
  have hfail : ∀ (E : Type) (errs : Nat → E) (attempts : Nat) (b : ℚ), 1 ≤ attempts →
      withRetries E Unit (fun k => .error (errs k)) attempts b =
        ⟨.error (errs attempts), attempts,
          (List.range (attempts - 1)).map (fun i => (i + 1, b * 2 ^ i))⟩ := by
    intro E errs attempts b h
    rw [withRetries, retryLoop_allFail]
    have hmax : max 1 attempts = attempts := Nat.max_eq_right h
    rw [hmax]
    have h1 : 1 + (attempts - 1) = attempts := by omega
    have h2 : attempts - 1 + 1 = attempts := by omega
    rw [h1, h2]
    refine congrArg (RetryTrace.mk (.error (errs attempts)) attempts) ?_
    apply List.map_congr_left
    intro i _
    have h3 : 1 + i - 1 = i := by omega
    rw [h3, Nat.add_comm 1 i]
  refine ⟨?_, hfail, ?_⟩
  · intro E A fn attempts b
    have h := retryLoop_calls_le E A fn b (max 1 attempts - 1) 1
    rw [withRetries]
    have : 1 ≤ max 1 attempts := le_max_left 1 attempts
    omega
  · have h := hfail ℕ (fun k => k) 3 100 (by norm_num)
    rw [h]
    norm_num [List.range_succ]

/-- C5 witness: the always-failing characterization instantiated at
attempts = 2, backoff = 5. -/
theorem C5_witness :
    withRetries ℕ Unit (fun k => .error k) 2 5 =
      ⟨.error 2, 2, (List.range (2 - 1)).map (fun i => (i + 1, (5 : ℚ) * 2 ^ i))⟩ :=
  C5_withRetries_retry_schedule.2.1 ℕ (fun k => k) 2 5 (by norm_num)

/-- C6: with an empty allow-list every host qualifies; a pattern
without `*` matches only the exact host; `*` is a multi-character
wildcard anchored at both ends unless the pattern itself starts or
ends with `*`; in particular a.cdn.example.com matches
*.cdn.example.com while cdn.example.com does not. -/
theorem C6_host_allowlist_matching :
    (∀ h : List Char, allowedHost [] h = true)
    ∧ (∀ h p : List Char, matchHost h p = true → p.contains '*' = false → h = p)
    ∧ matchHostS "a.cdn.example.com" "*.cdn.example.com" = true
    ∧ matchHostS "cdn.example.com" "*.cdn.example.com" = false
    ∧ allowedHostS ["*.cdn.example.com"] "a.cdn.example.com" = true
    ∧ allowedHostS ["*.cdn.example.com"] "cdn.example.com" = false
    ∧ matchHostS "axb" "a*b" = true
    ∧ matchHostS "zaxb" "a*b" = false
    ∧ matchHostS "axbz" "a*b" = false
    ∧ matchHostS "axbz" "a*b*" = true := by
  refine ⟨fun h => rfl, ?_, by decide, by decide, by decide, by decide,
    by decide, by decide, by decide, by decide⟩
  intro h p hm hc
  rw [matchHost, hc] at hm
  simp only [Bool.not_false, if_true] at hm
  by_cases he : (p.isEmpty || h.isEmpty) = true
  · rw [if_pos he] at hm
    exact absurd hm (by simp)
  · rw [if_neg he] at hm
    exact eq_of_beq hm

/-- C6 witness: the exact-match direction applied at a concrete
star-free pattern. -/
theorem C6_witness : "abc".toList = "abc".toList :=
  C6_host_allowlist_matching.2.1 "abc".toList "abc".toList (by decide) (by decide)

/-- C9: when the navigation call throws, runSingle catches the error
and still returns exactly one terminal trial result: timeoutReason is
navigation_timeout for a timeout-class error and navigation_error
otherwise, counts are zero, URL lists empty, the images-loaded
duration is null, timeout is true, and the error count is 0. -/
theorem C9_navigation_failure_record :
    ∀ (e : NavError) (w : WaitResult) (wall : ℚ),
      runSingle (.error e) w wall =
        { imagesLoadedMs := none, avgImageMs := none, sumImageMs := none,
          timeout := true,
          timeoutReason :=
            some (if e.isTimeoutClass then "navigation_timeout" else "navigation_error"),
          imagesTotal := 0, imagesLoaded := 0, imagesFailed := 0, imagesPending := 0,
          errorsCount := 0, imageUrls := [], imageFailedUrls := [], imageHosts := [] } := by
  intro e w wall
  rfl

/-- C10 (implicit): in every trial result of runSingle the reported
imagesTotal is the number of qualifying images minus the number of
failed images, while imagesFailed reports the failed count
separately. -/
theorem C10_images_total_subtracts_failed :
    (∀ (w : WaitResult) (wall : ℚ),
      (runSingle (.ok ()) w wall).imagesTotal = (w.stats.total : ℤ) - (w.stats.failed : ℤ)
      ∧ (runSingle (.ok ()) w wall).imagesFailed = w.stats.failed)
    ∧ (∀ (ig al : List String) (imgs : List ImgItem) (ents : List ResourceEntry),
      (collectImageTimings ig al imgs ents).total = (qualifyingImages ig al imgs).length
      ∧ (collectImageTimings ig al imgs ents).failed
          = (collectImageTimings ig al imgs ents).failedUrls.length) :=
  ⟨fun _ _ => ⟨rfl, rfl⟩, fun _ _ _ _ => ⟨rfl, rfl⟩⟩

/-- C2 counterexample: a snapshot in which all qualifying images
failed (total = failed = 1, pending = 0) terminates the loop with
reason no_images, not images_failed, although qualifying images
exist. -/
theorem C2_counterexample :
    (waitForImages (fun _ => allFailedStats) 5 0).timeoutReason = some "no_images"
    ∧ allFailedStats.total ≠ 0
    ∧ allFailedStats.pending = 0
    ∧ 0 < allFailedStats.failed
    ∧ (waitForImages (fun _ => allFailedStats) 5 0).timeoutReason ≠ some "images_failed" := by
  decide

/-- C2 (amended): the poll loop terminates early with reason
no_images exactly when total = 0 or total = failed; when total is
nonzero, not all images failed, and none are pending it terminates
with reason null if no image failed and images_failed otherwise; and
when the poll budget is exhausted it terminates with reason timeout,
returning the final collected snapshot regardless of completeness. -/
theorem C2_waitForImages_termination :
    ∀ (snaps : Nat → ImageStats) (fuel k : Nat),
      waitForImages snaps 0 k = ⟨true, some "timeout", snaps k⟩
      ∧ ((snaps k).total = 0 ∨ (snaps k).total = (snaps k).failed →
          waitForImages snaps (fuel + 1) k = ⟨false, some "no_images", snaps k⟩)
      ∧ ((snaps k).total ≠ 0 → (snaps k).total ≠ (snaps k).failed → (snaps k).pending = 0 →
          waitForImages snaps (fuel + 1) k =
            ⟨false, if 0 < (snaps k).failed then some "images_failed" else none, snaps k⟩)
      ∧ ((snaps k).total ≠ 0 → (snaps k).total ≠ (snaps k).failed → (snaps k).pending ≠ 0 →
          waitForImages snaps (fuel + 1) k = waitForImages snaps fuel (k + 1)) := by
  intro snaps fuel k
  refine ⟨rfl, ?_, ?_, ?_⟩
  · intro h
    have hp : pollDecision (snaps k) = some ⟨false, some "no_images", snaps k⟩ := by
      rw [pollDecision, if_pos h]
    rw [waitForImages, hp]
  · intro h1 h2 h3
    have hp : pollDecision (snaps k) =
        some ⟨false, if 0 < (snaps k).failed then some "images_failed" else none, snaps k⟩ := by
      rw [pollDecision, if_neg (not_or.mpr ⟨h1, h2⟩), if_pos h3]
    rw [waitForImages, hp]
  · intro h1 h2 h3
    have hp : pollDecision (snaps k) = none := by
      rw [pollDecision, if_neg (not_or.mpr ⟨h1, h2⟩), if_neg h3]
    rw [waitForImages, hp]

/-- C2 witness: the three early-termination branches instantiated at
concrete snapshots. -/
theorem C2_witness :
    waitForImages (fun _ => oneFailedStats) 1 0 =
      ⟨false, if 0 < oneFailedStats.failed then some "images_failed" else none, oneFailedStats⟩
    ∧ waitForImages (fun _ => onePendingStats) 1 0 = waitForImages (fun _ => onePendingStats) 0 1
    ∧ waitForImages (fun _ => allFailedStats) 1 0 = ⟨false, some "no_images", allFailedStats⟩ :=
  ⟨(C2_waitForImages_termination (fun _ => oneFailedStats) 0 0).2.2.1
      (by decide) (by decide) (by decide),
   (C2_waitForImages_termination (fun _ => onePendingStats) 0 0).2.2.2
      (by decide) (by decide) (by decide),
   (C2_waitForImages_termination (fun _ => allFailedStats) 0 0).2.1 (Or.inr (by decide))⟩

/-- C7: for every non-empty list, percentile(values, p) returns the
element of the ascending-sorted list at index ceil(p x n) - 1 clamped
to [0, n-1]; consequently percentile(values, 1) is the maximum and
percentile(values, 0) the minimum; for an empty list it returns
no-result. -/
theorem C7_percentile_nearest_rank :
    (∀ p : ℚ, percentile [] p = none)
    ∧ (∀ (v : List ℚ) (p : ℚ), v ≠ [] →
        percentile v p = some ((sortAsc v).getD
          (Int.toNat (max 0 (min ((v.length : ℤ) - 1)
            (Rat.ceil (p * (v.length : ℚ)) - 1)))) 0))
    ∧ (∀ v : List ℚ, v ≠ [] → percentile v 1 = some (v.maximum.unbot' 0))
    ∧ (∀ v : List ℚ, v ≠ [] → percentile v 0 = some (WithTop.untop' 0 v.minimum)) := by
  refine ⟨fun p => rfl, ?_, ?_, ?_⟩
  · intro v p hv
    rw [percentile, if_neg hv]
    simp only [sortAsc_length]
  · intro v hv
    have hpos : 0 < v.length := List.length_pos.mpr hv
    rw [percentile, if_neg hv]
    simp only [sortAsc_length]
    have hceil : Rat.ceil ((1 : ℚ) * (v.length : ℚ)) - 1 = (v.length : ℤ) - 1 := by
      rw [one_mul, ratCeil_natCast]
    rw [hceil, min_self]
    have hmax : max 0 ((v.length : ℤ) - 1) = (v.length : ℤ) - 1 := by omega
    rw [hmax]
    have htn : Int.toNat ((v.length : ℤ) - 1) = v.length - 1 := by omega
    rw [htn]
    rw [sortAsc_max v hv, WithBot.unbot'_coe]
  · intro v hv
    have hpos : 0 < v.length := List.length_pos.mpr hv
    rw [percentile, if_neg hv]
    simp only [sortAsc_length]
    have hceil : Rat.ceil ((0 : ℚ) * (v.length : ℚ)) - 1 = -1 := by
      rw [zero_mul]
      have h0 : Rat.ceil ((0 : ℚ)) = 0 := by
        have := ratCeil_natCast 0
        simpa using this
      rw [h0]
      decide
    rw [hceil]
    have hmin : min ((v.length : ℤ) - 1) (-1) = -1 := by omega
    rw [hmin]
    have hmax : max 0 (-1 : ℤ) = 0 := by omega
    rw [hmax]
    have htn : Int.toNat (0 : ℤ) = 0 := rfl
    rw [htn]
    rw [sortAsc_min v hv]
    rfl

/-- C7 witness: percentile at p = 1, p = 0 and p = 1/2 on the list
[2, 5, 1]. -/
theorem C7_witness :
    percentile [2, 5, 1] 1 = some (([2, 5, 1] : List ℚ).maximum.unbot' 0)
    ∧ percentile [2, 5, 1] 0 = some (WithTop.untop' 0 ([2, 5, 1] : List ℚ).minimum)
    ∧ percentile [2, 5, 1] (1 / 2) = some ((sortAsc [2, 5, 1]).getD
        (Int.toNat (max 0 (min ((([2, 5, 1] : List ℚ).length : ℤ) - 1)
          (Rat.ceil ((1 / 2) * (([2, 5, 1] : List ℚ).length : ℚ)) - 1)))) 0) :=
  ⟨C7_percentile_nearest_rank.2.2.1 [2, 5, 1] (by decide),
   C7_percentile_nearest_rank.2.2.2 [2, 5, 1] (by decide),
   C7_percentile_nearest_rank.2.1 [2, 5, 1] (1 / 2) (by decide)⟩

/-- C1 counterexample: a qualifying image that completed with zero
natural size but has a matching resource-timing entry is counted
among the loaded images and is not classified as failed. -/
theorem C1_counterexample :
    (collectImageTimings [] [] [brokenImg] [brokenEntry]).loaded = 1
    ∧ (collectImageTimings [] [] [brokenImg] [brokenEntry]).failed = 0
    ∧ (collectImageTimings [] [] [brokenImg] [brokenEntry]).failedUrls = []
    ∧ brokenImg.complete = true
    ∧ brokenImg.naturalWidth = 0
    ∧ (findTiming [brokenEntry] brokenImg).isSome = true := by
  decide

/-- C1 (amended): a qualifying image that completed with zero natural
size and has no matching resource-timing entry is classified as failed
and excluded from the loaded images; a qualifying image with a
matching entry, or one that completed with nonzero natural size, is
counted among the loaded images. -/
theorem C1_zero_natural_size_classification :
    ∀ (ig al : List String) (imgs : List ImgItem) (ents : List ResourceEntry),
      (collectImageTimings ig al imgs ents).failedUrls =
        ((qualifyingImages ig al imgs).filter (fun e =>
          (findTiming ents e).isNone && e.complete && decide (e.naturalWidth = 0))).map
          (fun e => e.src)
      ∧ (collectImageTimings ig al imgs ents).failed =
        ((qualifyingImages ig al imgs).filter (fun e =>
          (findTiming ents e).isNone && e.complete && decide (e.naturalWidth = 0))).length
      ∧ (collectImageTimings ig al imgs ents).loaded =
        ((qualifyingImages ig al imgs).filter (fun e =>
          (findTiming ents e).isSome || (e.complete && decide (0 < e.naturalWidth)))).length := by
  intro ig al imgs ents
  refine ⟨classifyImages_snd ents (qualifyingImages ig al imgs), ?_,
    classifyImages_fst_length ents (qualifyingImages ig al imgs)⟩
  show (classifyImages ents (qualifyingImages ig al imgs)).2.length = _
  rw [classifyImages_snd]
  rw [List.length_map]

theorem imageAggregates_spec (l : List ImageTiming) (hl : l ≠ []) :
    imageAggregates l = some ((l.map fullEnd).maximum.unbot' 0,
      (l.map fullEnd).maximum.unbot' 0 - (l.map fullStart).minimum.untop' 0,
      (l.map fullDuration).sum / (l.length : ℚ),
      (l.map fullDuration).sum) := by
  cases l with
  | nil => exact absurd rfl hl
  | cons t0 rest =>
    rw [imageAggregates]
    have hmax : ((t0 :: rest).map fullEnd).maximum =
        (((rest.map fullEnd).foldl max (fullEnd t0) : ℚ) : WithBot ℚ) := by
      rw [List.map_cons]
      exact foldl_max_eq_maximum _ _
    have hmin : ((t0 :: rest).map fullStart).minimum =
        (((rest.map fullStart).foldl min (fullStart t0) : ℚ) : WithTop ℚ) := by
      rw [List.map_cons]
      exact foldl_min_eq_minimum _ _
    rw [hmax, hmin, WithBot.unbot'_coe, WithTop.untop'_coe, List.length_map]

/-- C4: for every trial in which at least one image has full timing,
imagesOnlyMs equals max(responseEnd) minus min(responseEnd - duration)
over exactly the images with full timing, avgImageMs equals the mean
of those images' durations (not derived from the span), and no-timing
placeholders are counted as loaded but excluded from both
aggregates. -/
theorem C4_image_aggregate_formulas :
    ∀ (ig al : List String) (imgs : List ImgItem) (ents : List ResourceEntry)
      (s : ImageStats) (full : List ImageTiming),
      s = collectImageTimings ig al imgs ents →
      full = s.imageTimings.filter (fun t => t.responseEnd.isSome && t.duration.isSome) →
      (full ≠ [] →
        s.imagesOnlyMs = some ((full.map fullEnd).maximum.unbot' 0 -
          WithTop.untop' 0 (full.map fullStart).minimum)
        ∧ s.avgImageMs = some ((full.map fullDuration).sum / (full.length : ℚ)))
      ∧ s.loaded = s.imageTimings.length
      ∧ full.length + (s.imageTimings.filter (fun t => t.noTiming)).length
          = s.imageTimings.length := by
  intro ig al imgs ents s full hs hfull
  have hIT : (collectImageTimings ig al imgs ents).imageTimings
      = (classifyImages ents (qualifyingImages ig al imgs)).1 := rfl
  subst hs
  rw [hIT] at hfull
  refine ⟨?_, rfl, ?_⟩
  · intro hne
    have h1 : (collectImageTimings ig al imgs ents).imagesOnlyMs =
        (imageAggregates ((classifyImages ents (qualifyingImages ig al imgs)).1.filter
          (fun t => t.responseEnd.isSome && t.duration.isSome))).map
          (fun a => a.2.1) := rfl
    have h2 : (collectImageTimings ig al imgs ents).avgImageMs =
        (imageAggregates ((classifyImages ents (qualifyingImages ig al imgs)).1.filter
          (fun t => t.responseEnd.isSome && t.duration.isSome))).map
          (fun a => a.2.2.1) := rfl
    rw [h1, h2, ← hfull, imageAggregates_spec full hne]
    exact ⟨rfl, rfl⟩
  · rw [hIT, hfull]
    have hcong : ((classifyImages ents (qualifyingImages ig al imgs)).1.filter
        (fun t => t.responseEnd.isSome && t.duration.isSome))
        = ((classifyImages ents (qualifyingImages ig al imgs)).1.filter
          (fun t : ImageTiming => !t.noTiming)) :=
      List.filter_congr (fun t ht => classifyImages_full_of_mem ents _ t ht)
    rw [hcong]
    have hnn : ((classifyImages ents (qualifyingImages ig al imgs)).1.filter
        (fun t : ImageTiming => !(!t.noTiming)))
        = ((classifyImages ents (qualifyingImages ig al imgs)).1.filter
          (fun t : ImageTiming => t.noTiming)) :=
      List.filter_congr (fun t _ => by rw [Bool.not_not])
    rw [← hnn]
    exact length_filter_not_partition (fun t : ImageTiming => !t.noTiming) _

/-- C4 witness: the aggregate formulas instantiated on one fully-timed
image plus one no-timing image. -/
theorem C4_witness :
    c4Collected.imagesOnlyMs = some ((c4Full.map fullEnd).maximum.unbot' 0 -
      WithTop.untop' 0 (c4Full.map fullStart).minimum)
    ∧ c4Collected.avgImageMs = some ((c4Full.map fullDuration).sum / (c4Full.length : ℚ)) :=
  (C4_image_aggregate_formulas [] [] [timedImg, untimedImg] [timedEntry]
    c4Collected c4Full rfl rfl).1 (by decide)

/-- C3 counterexample: the trailing summary row does not leave its
first eleven columns blank; its first four cells are the timestamp,
TOTAL, -, -. -/
theorem C3_counterexample :
    ¬ ((summaryToCsvRow (computeSummary []) "2024-01-01T00:00:00.000Z").take 11
        = List.replicate 11 "") := by
  decide

set_option maxRecDepth 8192 in
/-- C3 (amended): the CSV report has the exact 19-column header order
given in the spec; every per-trial row leaves the eight summary
columns blank; and there is exactly one trailing summary row, labeled
page_id=TOTAL, variant=-, run=-, whose columns five through eleven
(the per-trial metric columns) are blank and whose eight summary
columns are filled whenever the corresponding aggregates are
present. -/
theorem C3_csv_layout :
    csvHeaderLine = "timestamp,page_id,variant,run,images_ms,avg_img_ms,ttfb_ms,lcp_ms,images_total,images_failed,errors,origin_median,origin_p90,origin_avg_img,cdn_median,cdn_p90,cdn_avg_img,improvement_%,improvement_p90_%"
    ∧ CSV_HEADER.length = 19
    ∧ (∀ r : TrialRecord, (recordToCsvRow r).length = 19
        ∧ (recordToCsvRow r).drop 11 = List.replicate 8 "")
    ∧ (∀ (s : Summary) (ts : String), (summaryToCsvRow s ts).length = 19
        ∧ (summaryToCsvRow s ts).take 4 = [ts, "TOTAL", "-", "-"]
        ∧ ((summaryToCsvRow s ts).drop 4).take 7 = List.replicate 7 "")
    ∧ (∀ (s : Summary) (ts : String),
        s.originMedian.isSome = true → s.originP90.isSome = true →
        s.originAvgImg.isSome = true → s.cdnMedian.isSome = true →
        s.cdnP90.isSome = true → s.cdnAvgImg.isSome = true →
        s.improvementMedian.isSome = true → s.improvementP90.isSome = true →
        (((summaryToCsvRow s ts).drop 11).all (fun c => !(c == ""))) = true)
    ∧ (∀ (records : List TrialRecord) (ts : String),
        saveReportLines records ts =
          (csvHeaderLine :: records.map (fun r => String.intercalate "," (recordToCsvRow r)))
            ++ [String.intercalate "," (summaryToCsvRow (computeSummary records) ts)]
        ∧ (saveReportLines records ts).getLast? =
          some (String.intercalate "," (summaryToCsvRow (computeSummary records) ts))
        ∧ (saveReportLines records ts).length = records.length + 2) := by
  refine ⟨by decide, rfl, fun r => ⟨rfl, rfl⟩, fun s ts => ⟨rfl, rfl, rfl⟩, ?_, ?_⟩
  · intro s ts h1 h2 h3 h4 h5 h6 h7 h8
    obtain ⟨x1, hx1⟩ := Option.isSome_iff_exists.mp h1
    obtain ⟨x2, hx2⟩ := Option.isSome_iff_exists.mp h2
    obtain ⟨x3, hx3⟩ := Option.isSome_iff_exists.mp h3
    obtain ⟨x4, hx4⟩ := Option.isSome_iff_exists.mp h4
    obtain ⟨x5, hx5⟩ := Option.isSome_iff_exists.mp h5
    obtain ⟨x6, hx6⟩ := Option.isSome_iff_exists.mp h6
    obtain ⟨x7, hx7⟩ := Option.isSome_iff_exists.mp h7
    obtain ⟨x8, hx8⟩ := Option.isSome_iff_exists.mp h8
    simp only [summaryToCsvRow, hx1, hx2, hx3, hx4, hx5, hx6, hx7, hx8, optCell, optFixed1]
    simp [beq_eq_false_iff_ne, intToCell_ne_empty, toFixed1_ne_empty]
  · intro records ts
    refine ⟨rfl, ?_, ?_⟩
    · rw [saveReportLines]
      rw [List.getLast?_concat]
    · rw [saveReportLines]
      rw [List.length_append, List.length_cons, List.length_map]
      simp

/-- C3 witness: the filled-summary-columns conjunct instantiated at a
summary whose aggregates are all present. -/
theorem C3_witness :
    (((summaryToCsvRow filledSummary "t").drop 11).all (fun c => !(c == ""))) = true :=
  C3_csv_layout.2.2.2.2.1 filledSummary "t" rfl rfl rfl rfl rfl rfl rfl rfl
